import Mathlib

/-!
Verification of the ArchiveUpload server (src/server/server.js): the multer
boundary filter, the upload-processing pipeline (thumbnail derivation, audio
derivation, transcription, duration probe, persistence, transient-file
cleanup), the recordings query surface, and the delete route.

The pipeline handler is embedded as a pure function over an oracle `Env`
describing the outcome of each external call (ffmpeg, OpenAI, MongoDB).
Alongside its HTTP response and resulting store, a run yields the ordered
list of filesystem/tracker events it performs, from which the cleanup
invariants are stated.
-/

namespace ArchiveUpload

/-- Character-list test: does the second list start with the first?
Models the JS semantics of `String.prototype.startsWith` and anchored
regex matching over ASCII data. -/
def startsWithChars : List Char → List Char → Bool
  | [], _ => true
  | _ :: _, [] => false
  | p :: ps, c :: cs => p == c && startsWithChars ps cs

/-- `s.startsWith(pre)` from JS. -/
def strStartsWith (s pre : String) : Bool :=
  startsWithChars pre.data s.data

/-- Anchored-at-end match: does `s` end with `suf`? -/
def strEndsWith (s suf : String) : Bool :=
  startsWithChars suf.data.reverse s.data.reverse

/-- Does `sub` occur anywhere inside the character list? -/
def hasSubstrChars (sub : List Char) : List Char → Bool
  | [] => startsWithChars sub []
  | c :: cs => startsWithChars sub (c :: cs) || hasSubstrChars sub cs

/-- Substring occurrence test on strings. -/
def containsSubstr (s sub : String) : Bool :=
  hasSubstrChars sub.data s.data

/-- ASCII lower-casing, as JS `toLowerCase` acts on ASCII filenames. -/
def strToLower (s : String) : String :=
  String.mk (s.data.map Char.toLower)

/-- Drop the last `n` characters of a string. -/
def strDropRight (s : String) (n : Nat) : String :=
  String.mk (s.data.take (s.data.length - n))

/-- multer's accepted MIME types (server.js lines 40-46). -/
def validTypes : List String :=
  ["video/mp4", "video/webm", "video/quicktime", "video/x-msvideo",
   "application/octet-stream"]

/-- The filename test of the multer fileFilter, the regex
match to mp4, webm or mov after a dot at the end of the name,
case-insensitively (server.js line 50). -/
def hasVideoExtension (name : String) : Bool :=
  let l := strToLower name
  strEndsWith l ".mp4" || strEndsWith l ".webm" || strEndsWith l ".mov"

/-- multer fileFilter (server.js lines 33-56): accept when the MIME type is
listed, or starts with video/, or the original filename carries a video
extension; otherwise reject. -/
def fileFilter (mimetype originalname : String) : Bool :=
  validTypes.contains mimetype || strStartsWith mimetype "video/" ||
    hasVideoExtension originalname

/-- multer size ceiling: 100MB (server.js lines 57-59). -/
def fileSizeLimit : Nat := 100 * 1024 * 1024

/-- The file object multer hands to the route handler. -/
structure UploadedFile where
  path : String
  originalname : String
  mimetype : String
  size : Nat
deriving DecidableEq

/-- The multer boundary in one predicate: the fileFilter accepts the file and
its size is within the configured ceiling. There is no minimum-size check. -/
def multerAccepts (f : UploadedFile) : Bool :=
  fileFilter f.mimetype f.originalname && decide (f.size ≤ fileSizeLimit)

/-- The regex replacement target of createThumbnail and convertToAudio
(server.js lines 90 and 103): strip a trailing .webm, .mp4 or .mov. `none`
when the regex does not match (JS replace then leaves the string intact). -/
def stripMediaExt (p : String) : Option String :=
  if strEndsWith p ".webm" then some (strDropRight p 5)
  else if strEndsWith p ".mp4" then some (strDropRight p 4)
  else if strEndsWith p ".mov" then some (strDropRight p 4)
  else none

/-- Output path of createThumbnail (server.js line 103). -/
def thumbnailPathOf (p : String) : String :=
  match stripMediaExt p with
  | some stem => stem ++ "-thumb.jpg"
  | none => p

/-- Output path of convertToAudio (server.js line 90). -/
def audioPathOf (p : String) : String :=
  match stripMediaExt p with
  | some stem => stem ++ ".mp3"
  | none => p

/-- The base64 alphabet used by Buffer.toString with base64. -/
def base64Alphabet : List Char :=
  ['A','B','C','D','E','F','G','H','I','J','K','L','M',
   'N','O','P','Q','R','S','T','U','V','W','X','Y','Z',
   'a','b','c','d','e','f','g','h','i','j','k','l','m',
   'n','o','p','q','r','s','t','u','v','w','x','y','z',
   '0','1','2','3','4','5','6','7','8','9','+','/']

/-- Character for a 6-bit value. -/
def b64Char (n : Nat) : Char := base64Alphabet.getD n 'A'

/-- Position of a character in the base64 alphabet. -/
def b64Index (c : Char) : Option Nat :=
  List.findIdx? (fun x => x == c) base64Alphabet

/-- RFC 4648 base64 encoding of a byte list, three bytes to four
characters, padded with the equals sign, as Buffer.toString produces. -/
def base64EncodeList : List Nat → List Char
  | [] => []
  | [b1] => [b64Char (b1 / 4), b64Char (b1 % 4 * 16), '=', '=']
  | [b1, b2] =>
      [b64Char (b1 / 4), b64Char (b1 % 4 * 16 + b2 / 16),
       b64Char (b2 % 16 * 4), '=']
  | b1 :: b2 :: b3 :: rest =>
      b64Char (b1 / 4) :: b64Char (b1 % 4 * 16 + b2 / 16) ::
      b64Char (b2 % 16 * 4 + b3 / 64) :: b64Char (b3 % 64) ::
      base64EncodeList rest

/-- Buffer.toString base64 on a byte list, as a string. -/
def base64Encode (bytes : List Nat) : String :=
  String.mk (base64EncodeList bytes)

/-- Standard base64 decoding, four characters to three bytes, honouring
padding; `none` on malformed input. This is the decoder a consumer of the
stored thumbnail field applies (the client feeds it to a data URL). -/
def base64DecodeChars : List Char → Option (List Nat)
  | [] => some []
  | c1 :: c2 :: c3 :: c4 :: rest =>
    match b64Index c1, b64Index c2 with
    | some v1, some v2 =>
      if c3 = '=' then
        if c4 = '=' ∧ rest = [] then some [v1 * 4 + v2 / 16] else none
      else
        match b64Index c3 with
        | some v3 =>
          if c4 = '=' then
            if rest = [] then
              some [v1 * 4 + v2 / 16, v2 % 16 * 16 + v3 / 4]
            else none
          else
            match b64Index c4, base64DecodeChars rest with
            | some v4, some tail =>
                some ((v1 * 4 + v2 / 16) :: (v2 % 16 * 16 + v3 / 4) ::
                      (v3 % 4 * 64 + v4) :: tail)
            | _, _ => none
        | none => none
    | _, _ => none
  | _ => none

/-- Base64 decoding of a string. -/
def base64Decode (s : String) : Option (List Nat) :=
  base64DecodeChars s.data

/-- Outcome of one external call: success with a value, or a rejection
carrying the error message. -/
inductive ExtResult (α : Type) where
  | ok (val : α)
  | err (msg : String)
deriving DecidableEq

/-- Filesystem and tracker events a run performs, in order: a file appears
on disk, a path is pushed onto the files array, a fallible external call is
issued, cleanupFiles drains the files array. -/
inductive Event where
  | create (p : String)
  | register (p : String)
  | extCall (callee : String)
  | cleanup
deriving DecidableEq

/-- Metadata subdocument persisted with a recording (server.js 165-170). -/
structure RecordingMetadata where
  originalName : String
  mimeType : String
  size : Nat
  duration : Nat
deriving DecidableEq

/-- A durable recording document (server.js 161-171), with the
store-assigned id. -/
structure Recording where
  id : String
  transcript : String
  thumbnail : String
  timestamp : Nat
  metadata : RecordingMetadata
deriving DecidableEq

/-- Which stage's rejection the catch block received. -/
inductive PipelineError where
  | thumb (msg : String)
  | audio (msg : String)
  | transcribe (msg : String)
  | probe (msg : String)
  | insert (msg : String)
deriving DecidableEq

/-- The message carried by the thrown error. -/
def PipelineError.message : PipelineError → String
  | .thumb m => m
  | .audio m => m
  | .transcribe m => m
  | .probe m => m
  | .insert m => m

/-- JSON responses of the upload route: the 400 for a missing file, the
success body, and the 500 body with its stable error string and the details
field copied from the caught error's message. -/
inductive UploadResponse where
  | noFile
  | ok (transcription : String) (recordingId : String)
  | failed (error : String) (details : String)
deriving DecidableEq

/-- Oracle for the external calls of one run: ffmpeg screenshot, ffmpeg
mp3 transcode, OpenAI transcription, ffprobe duration, MongoDB insertOne
(yielding the insertedId), plus the bytes readFileSync returns for the
thumbnail and the clock value for the timestamp. -/
structure Env where
  thumbResult : ExtResult Unit
  audioResult : ExtResult Unit
  transcribeResult : ExtResult String
  probeResult : ExtResult Nat
  insertResult : ExtResult String
  thumbBytes : List Nat
  now : Nat

/-- Everything one run produces: the response, the ordered event trace, the
store after the run, and which error the catch block saw, if any. -/
structure RunResult where
  response : UploadResponse
  events : List Event
  store : List Recording
  caught : Option PipelineError
deriving DecidableEq

/-- The POST /api/upload handler (server.js 129-191). With no file, respond
400 at once. Otherwise push the upload path, derive the thumbnail and push
its path, derive the audio and push its path, transcribe, then build the
document: its duration field awaits the ffprobe promise, whose rejection is
raised before insertOne is invoked (getVideoDuration rejects on probe error,
server.js 194-201). Any rejection lands in the catch block, which drains the
files array and responds 500 with details set to the error message; on
success the drain precedes the success response. -/
def uploadRun (reqFile : Option UploadedFile) (env : Env)
    (store : List Recording) : RunResult :=
  match reqFile with
  | none =>
    { response := .noFile, events := [], store := store, caught := none }
  | some f =>
    let ev0 : List Event := [.create f.path, .register f.path]
    match env.thumbResult with
    | .err m =>
      { response := .failed "Upload failed" m,
        events := ev0 ++ [.extCall "thumbnail", .cleanup],
        store := store, caught := some (.thumb m) }
    | .ok _ =>
      let tp := thumbnailPathOf f.path
      let ev1 := ev0 ++ [.extCall "thumbnail", .create tp, .register tp]
      match env.audioResult with
      | .err m =>
        { response := .failed "Upload failed" m,
          events := ev1 ++ [.extCall "audio", .cleanup],
          store := store, caught := some (.audio m) }
      | .ok _ =>
        let ap := audioPathOf f.path
        let ev2 := ev1 ++ [.extCall "audio", .create ap, .register ap]
        match env.transcribeResult with
        | .err m =>
          { response := .failed "Upload failed" m,
            events := ev2 ++ [.extCall "transcribe", .cleanup],
            store := store, caught := some (.transcribe m) }
        | .ok text =>
          let ev3 := ev2 ++ [.extCall "transcribe"]
          match env.probeResult with
          | .err m =>
            { response := .failed "Upload failed" m,
              events := ev3 ++ [.extCall "probe", .cleanup],
              store := store, caught := some (.probe m) }
          | .ok dur =>
            let ev4 := ev3 ++ [.extCall "probe"]
            match env.insertResult with
            | .err m =>
              { response := .failed "Upload failed" m,
                events := ev4 ++ [.extCall "insert", .cleanup],
                store := store, caught := some (.insert m) }
            | .ok rid =>
              let doc : Recording :=
                { id := rid, transcript := text,
                  thumbnail := base64Encode env.thumbBytes,
                  timestamp := env.now,
                  metadata :=
                    { originalName := f.originalname,
                      mimeType := f.mimetype,
                      size := f.size, duration := dur } }
              { response := .ok text rid,
                events := ev4 ++ [.extCall "insert", .cleanup],
                store := store ++ [doc],
                caught := none }

/-- Number of cleanupFiles drains in a trace. -/
def drainCount (evs : List Event) : Nat :=
  evs.countP fun e => match e with | .cleanup => true | _ => false

/-- Fold a trace over (files array, disk): create puts the path on disk,
register appends it to the files array, cleanup removes from disk every path
the files array holds (cleanupFiles unlinks each registered path that
exists). -/
def stepState (s : List String × List String) (e : Event) :
    List String × List String :=
  match e with
  | .create p => (s.1, p :: s.2)
  | .register p => (s.1 ++ [p], s.2)
  | .extCall _ => s
  | .cleanup => (s.1, s.2.filter (fun q => !s.1.contains q))

/-- Files array and disk contents after a trace, from an initial disk. -/
def finalState (init : List String) (evs : List Event) :
    List String × List String :=
  evs.foldl stepState ([], init)

/-- The files array at the end of a trace. -/
def finalRegistered (evs : List Event) : List String :=
  (finalState [] evs).1

/-- The disk contents at the end of a trace. -/
def finalDisk (init : List String) (evs : List Event) : List String :=
  (finalState init evs).2

/-- Checker: at every external call in the trace, every path created so far
is already held by the files array. -/
def trackedBeforeCalls (created registered : List String) :
    List Event → Bool
  | [] => true
  | .create p :: rest => trackedBeforeCalls (p :: created) registered rest
  | .register p :: rest => trackedBeforeCalls created (p :: registered) rest
  | .extCall _ :: rest =>
      created.all registered.contains &&
        trackedBeforeCalls created registered rest
  | .cleanup :: rest => trackedBeforeCalls created registered rest

/-- Checker: every create is immediately followed by the registration of
the same path. -/
def registerImmediate : List Event → Bool
  | [] => true
  | .create p :: rest =>
      (match rest with | .register q :: _ => p == q | _ => false) &&
        registerImmediate rest
  | _ :: rest => registerImmediate rest

/-- GET /api/recordings (server.js 204-216): all documents sorted by
timestamp descending. -/
def listRecordings (store : List Recording) : List Recording :=
  store.mergeSort fun a b => decide (b.timestamp ≤ a.timestamp)

/-- The delete route builds its filter id with new MongoClient.ObjectId
(server.js line 222); the mongodb module's MongoClient export has no
ObjectId member, so the lookup yields undefined and the construction throws
for every id string. This function returns none for every input, mirroring
that the construction never succeeds. (Even under the intended top-level
ObjectId import, a non-hex id such as does-not-exist would throw here.) -/
def mongoClientObjectId (_s : String) : Option String := none

/-- Responses of DELETE /api/recordings/:id (server.js 219-234). -/
inductive DeleteResponse where
  | ok
  | notFound
  | serverError (error : String)
deriving DecidableEq

/-- deleteOne semantics: remove the first document whose id matches. -/
def removeFirst (store : List Recording) (oid : String) : List Recording :=
  match store with
  | [] => []
  | r :: rest => if r.id == oid then rest else r :: removeFirst rest oid

/-- The DELETE /api/recordings/:id handler (server.js 219-234): construct
the ObjectId (which throws, landing in the catch block that responds 500),
then deleteOne; a zero deletedCount would give the 404, a hit the success
body. -/
def deleteRecording (store : List Recording) (idParam : String) :
    DeleteResponse × List Recording :=
  match mongoClientObjectId idParam with
  | none => (.serverError "Failed to delete recording", store)
  | some oid =>
    if store.any (fun r => r.id == oid) then (.ok, removeFirst store oid)
    else (.notFound, store)

/-- Is the last event of a trace the cleanup drain? -/
def lastIsCleanup : List Event → Bool
  | [] => false
  | [e] => e == .cleanup
  | _ :: rest => lastIsCleanup rest

/-- Placeholder document for getLastD. -/
def dummyRec : Recording :=
  { id := "", transcript := "", thumbnail := "", timestamp := 0,
    metadata :=
      { originalName := "", mimeType := "", size := 0, duration := 0 } }

/-- A representative stored upload, as multer presents it. -/
def fClip : UploadedFile :=
  { path := "uploads/1700000000000.webm", originalname := "clip.webm",
    mimetype := "video/webm", size := 9 }

/-- A zero-byte upload with an accepted MIME type. -/
def fEmpty : UploadedFile :=
  { path := "uploads/1700000000001.webm", originalname := "blob.webm",
    mimetype := "video/webm", size := 0 }

/-- A one-document store. -/
def sampleStore : List Recording :=
  [{ id := "R1", transcript := "hello world", thumbnail := "TWFu",
     timestamp := 1700000000,
     metadata :=
       { originalName := "clip.webm", mimeType := "video/webm", size := 9,
         duration := 10 } }]

/-- An oracle under which every external call succeeds. -/
def envHappy : Env :=
  { thumbResult := .ok (), audioResult := .ok (),
    transcribeResult := .ok "hello world", probeResult := .ok 10,
    insertResult := .ok "R1", thumbBytes := [77, 97, 110],
    now := 1700000000 }

/-- An oracle under which only the ffprobe duration probe rejects. -/
def envProbeFail : Env :=
  { thumbResult := .ok (), audioResult := .ok (),
    transcribeResult := .ok "hello world",
    probeResult := .err "ffprobe failed", insertResult := .ok "R1",
    thumbBytes := [77, 97, 110], now := 1700000000 }

/-- An oracle under which the transcription call rejects. -/
def envTranscribeFail : Env :=
  { thumbResult := .ok (), audioResult := .ok (),
    transcribeResult := .err "api down", probeResult := .ok 10,
    insertResult := .ok "R1", thumbBytes := [77, 97, 110],
    now := 1700000000 }

/-- An oracle under which the thumbnail derivation rejects, with an ffmpeg
error message that embeds an internal filesystem path. -/
def envThumbFail : Env :=
  { thumbResult :=
      .err "ENOENT: no such file or directory, open uploads/1700000000000.webm",
    audioResult := .ok (), transcribeResult := .ok "hello world",
    probeResult := .ok 10, insertResult := .ok "R1",
    thumbBytes := [77, 97, 110], now := 1700000000 }

theorem b64Index_b64Char : ∀ v : Nat, v < 64 →
    b64Index (b64Char v) = some v := by decide

theorem b64Char_ne_pad (v : Nat) : b64Char v ≠ '=' := by
  rcases Nat.lt_or_ge v 64 with h | h
  · revert h
    revert v
    decide
  · unfold b64Char
    rw [List.getD_eq_default]
    · decide
    · simpa using h

theorem base64DecodeChars_encode : ∀ (B : List Nat), (∀ b ∈ B, b < 256) →
    base64DecodeChars (base64EncodeList B) = some B
  | [], _ => rfl
  | [b1], h => by
    have hb1 : b1 < 256 := h b1 (by simp)
    have h1 : b1 / 4 < 64 := by omega
    have h2 : b1 % 4 * 16 < 64 := by omega
    simp only [base64EncodeList, base64DecodeChars,
      b64Index_b64Char _ h1, b64Index_b64Char _ h2]
    simp
    omega
  | [b1, b2], h => by
    have hb1 : b1 < 256 := h b1 (by simp)
    have hb2 : b2 < 256 := h b2 (by simp)
    have h1 : b1 / 4 < 64 := by omega
    have h2 : b1 % 4 * 16 + b2 / 16 < 64 := by omega
    have h3 : b2 % 16 * 4 < 64 := by omega
    simp only [base64EncodeList, base64DecodeChars,
      b64Index_b64Char _ h1, b64Index_b64Char _ h2, b64Index_b64Char _ h3,
      if_neg (b64Char_ne_pad _), if_pos rfl]
    simp
    omega
  | b1 :: b2 :: b3 :: rest, h => by
    have hb1 : b1 < 256 := h b1 (by simp)
    have hb2 : b2 < 256 := h b2 (by simp)
    have hb3 : b3 < 256 := h b3 (by simp)
    have h1 : b1 / 4 < 64 := by omega
    have h2 : b1 % 4 * 16 + b2 / 16 < 64 := by omega
    have h3 : b2 % 16 * 4 + b3 / 64 < 64 := by omega
    have h4 : b3 % 64 < 64 := by omega
    have ih := base64DecodeChars_encode rest
      (fun b hb => h b (by simp [hb]))
    match rest with
    | [] =>
      simp only [base64EncodeList, base64DecodeChars,
        b64Index_b64Char _ h1, b64Index_b64Char _ h2,
        b64Index_b64Char _ h3, b64Index_b64Char _ h4,
        if_neg (b64Char_ne_pad _)]
      simp
      omega
    | r :: rs =>
      simp only [base64EncodeList] at ih ⊢
      simp only [base64DecodeChars,
        b64Index_b64Char _ h1, b64Index_b64Char _ h2,
        b64Index_b64Char _ h3, b64Index_b64Char _ h4,
        if_neg (b64Char_ne_pad _), ih]
      simp
      omega

/-- The encode-decode round trip on byte lists, lifted to strings. -/
theorem base64_roundtrip (B : List Nat) (h : ∀ b ∈ B, b < 256) :
    base64Decode (base64Encode B) = some B :=
  base64DecodeChars_encode B h

/-- Claim C1: whenever a file was received, the run performs exactly one
cleanup drain, it is the final event of the run, after it no path held by
the files array remains on disk, and the disk holds no file that was not
already there before the run, on the success path and on every failure
path alike. -/
theorem C1_cleanup_drains_once (f : UploadedFile) (env : Env)
    (store : List Recording) (init : List String) :
    drainCount (uploadRun (some f) env store).events = 1 ∧
    lastIsCleanup (uploadRun (some f) env store).events = true ∧
    (∀ q, q ∈ finalDisk init (uploadRun (some f) env store).events →
      q ∈ init) ∧
    (∀ q, q ∈ finalRegistered (uploadRun (some f) env store).events →
      q ∉ finalDisk init (uploadRun (some f) env store).events) := by
  obtain ⟨tr, ar, sr, pr, ir, tb, now⟩ := env
  cases tr <;> cases ar <;> cases sr <;> cases pr <;> cases ir <;>
    refine ⟨by simp [uploadRun, drainCount],
      by simp [uploadRun, lastIsCleanup], ?_, ?_⟩ <;>
    simp only [uploadRun, finalDisk, finalRegistered, finalState, stepState,
      List.foldl, List.cons_append, List.nil_append] <;>
    intro q hq <;> simp_all <;> tauto

/-- Claim C1 witness: on a concrete all-success run from a disk holding one
unrelated file, the drain happens once, the unrelated file survives, and the
registered upload path is gone from disk. -/
theorem C1_witness :
    drainCount (uploadRun (some fClip) envHappy []).events = 1 ∧
    "keep.txt" ∈ ["keep.txt"] ∧
    "uploads/1700000000000.webm" ∉
      finalDisk ["keep.txt"] (uploadRun (some fClip) envHappy []).events :=
  ⟨(C1_cleanup_drains_once fClip envHappy [] ["keep.txt"]).1,
   (C1_cleanup_drains_once fClip envHappy [] ["keep.txt"]).2.2.1
     "keep.txt" (by decide),
   (C1_cleanup_drains_once fClip envHappy [] ["keep.txt"]).2.2.2
     "uploads/1700000000000.webm" (by decide)⟩

/-- Claim C2: in every run each created path is registered with the files
array immediately upon creation, and at the moment of every fallible
external call every path created so far is already registered. -/
theorem C2_artifacts_registered (f : UploadedFile) (env : Env)
    (store : List Recording) :
    trackedBeforeCalls [] [] (uploadRun (some f) env store).events = true ∧
    registerImmediate (uploadRun (some f) env store).events = true := by
  obtain ⟨tr, ar, sr, pr, ir, tb, now⟩ := env
  cases tr <;> cases ar <;> cases sr <;> cases pr <;> cases ir <;>
    simp [uploadRun, trackedBeforeCalls, registerImmediate]

/-- Claim C3 counterexample: on a concrete run where thumbnail, audio,
transcription and persistence would all succeed but the duration probe
rejects, the code does not succeed with a null duration: the rejection of
getVideoDuration aborts the run before insertOne is invoked, the store
stays empty, and the response is the 500 failure body. -/
theorem C3_counterexample :
    (uploadRun (some fClip) envProbeFail []).response =
      .failed "Upload failed" "ffprobe failed" ∧
    (uploadRun (some fClip) envProbeFail []).response ≠
      .ok "hello world" "R1" ∧
    (uploadRun (some fClip) envProbeFail []).store = [] ∧
    Event.extCall "insert" ∉ (uploadRun (some fClip) envProbeFail []).events := by
  decide

/-- Claim C3 amended: when every stage up to transcription succeeds but the
duration probe fails, the run fails rather than succeeding with a null
duration: the probe rejection is caught, persistence is never invoked, no
Recording is added, the response is the 500 failure carrying the probe
error message, and the cleanup drain still runs once. -/
theorem C3_probe_failure_fails_run (f : UploadedFile) (env : Env)
    (store : List Recording) (t m : String)
    (ht : env.thumbResult = .ok ()) (ha : env.audioResult = .ok ())
    (hs : env.transcribeResult = .ok t) (hp : env.probeResult = .err m) :
    (uploadRun (some f) env store).caught = some (.probe m) ∧
    (uploadRun (some f) env store).response = .failed "Upload failed" m ∧
    Event.extCall "insert" ∉ (uploadRun (some f) env store).events ∧
    (uploadRun (some f) env store).store = store ∧
    drainCount (uploadRun (some f) env store).events = 1 := by
  simp [uploadRun, ht, ha, hs, hp, drainCount]

/-- Claim C3 amended witness: the amended statement at the concrete
probe-failure oracle. -/
theorem C3_amended_witness :
    (uploadRun (some fClip) envProbeFail sampleStore).caught =
      some (.probe "ffprobe failed") ∧
    (uploadRun (some fClip) envProbeFail sampleStore).response =
      .failed "Upload failed" "ffprobe failed" ∧
    Event.extCall "insert" ∉
      (uploadRun (some fClip) envProbeFail sampleStore).events ∧
    (uploadRun (some fClip) envProbeFail sampleStore).store = sampleStore ∧
    drainCount (uploadRun (some fClip) envProbeFail sampleStore).events = 1 :=
  C3_probe_failure_fails_run fClip envProbeFail sampleStore
    "hello world" "ffprobe failed" rfl rfl rfl rfl

/-- Claim C4: when the transcription call fails, the caught error is the
transcription rejection, the response is the failure body, insertOne is
never invoked, the store is unchanged, and the listing surface shows
exactly what it showed before: no partial transcript is observable. -/
theorem C4_transcription_failure (f : UploadedFile) (env : Env)
    (store : List Recording) (m : String)
    (ht : env.thumbResult = .ok ()) (ha : env.audioResult = .ok ())
    (hs : env.transcribeResult = .err m) :
    (uploadRun (some f) env store).caught = some (.transcribe m) ∧
    (uploadRun (some f) env store).response = .failed "Upload failed" m ∧
    Event.extCall "insert" ∉ (uploadRun (some f) env store).events ∧
    (uploadRun (some f) env store).store = store ∧
    listRecordings (uploadRun (some f) env store).store =
      listRecordings store := by
  simp [uploadRun, ht, ha, hs]

/-- Claim C4 witness: the statement at a concrete transcription-failure
oracle over a one-document store. -/
theorem C4_witness :
    (uploadRun (some fClip) envTranscribeFail sampleStore).caught =
      some (.transcribe "api down") ∧
    (uploadRun (some fClip) envTranscribeFail sampleStore).response =
      .failed "Upload failed" "api down" ∧
    Event.extCall "insert" ∉
      (uploadRun (some fClip) envTranscribeFail sampleStore).events ∧
    (uploadRun (some fClip) envTranscribeFail sampleStore).store =
      sampleStore ∧
    listRecordings (uploadRun (some fClip) envTranscribeFail sampleStore).store =
      listRecordings sampleStore :=
  C4_transcription_failure fClip envTranscribeFail sampleStore
    "api down" rfl rfl rfl

/-- Claim C5: when thumbnail or audio derivation fails, the caught error is
that derivation rejection, transcription and persistence are never invoked,
no Recording is created, and every path created before the failure is
registered at drain time and absent from the final disk. -/
theorem C5_derivation_failure (f : UploadedFile) (env : Env)
    (store : List Recording) (init : List String) (m : String)
    (h : env.thumbResult = .err m ∨
      (env.thumbResult = .ok () ∧ env.audioResult = .err m)) :
    ((uploadRun (some f) env store).caught = some (.thumb m) ∨
     (uploadRun (some f) env store).caught = some (.audio m)) ∧
    (uploadRun (some f) env store).response = .failed "Upload failed" m ∧
    Event.extCall "transcribe" ∉ (uploadRun (some f) env store).events ∧
    Event.extCall "insert" ∉ (uploadRun (some f) env store).events ∧
    (uploadRun (some f) env store).store = store ∧
    (∀ q, Event.create q ∈ (uploadRun (some f) env store).events →
      q ∈ finalRegistered (uploadRun (some f) env store).events ∧
      q ∉ finalDisk init (uploadRun (some f) env store).events) := by
  rcases h with hm | ⟨ht, hm⟩
  · refine ⟨?_, ?_, ?_, ?_, ?_, ?_⟩ <;>
      simp only [uploadRun, hm, finalDisk, finalRegistered, finalState,
        stepState, List.foldl, List.cons_append, List.nil_append] <;>
      simp
  · refine ⟨?_, ?_, ?_, ?_, ?_, ?_⟩ <;>
      simp only [uploadRun, ht, hm, finalDisk, finalRegistered, finalState,
        stepState, List.foldl, List.cons_append, List.nil_append] <;>
      simp

/-- Claim C5 witness: the statement at a concrete thumbnail-failure oracle,
applied to the upload path it creates. -/
theorem C5_witness :
    (((uploadRun (some fClip) envThumbFail []).caught =
        some (.thumb
          "ENOENT: no such file or directory, open uploads/1700000000000.webm") ∨
      (uploadRun (some fClip) envThumbFail []).caught =
        some (.audio
          "ENOENT: no such file or directory, open uploads/1700000000000.webm")) ∧
     Event.extCall "transcribe" ∉
       (uploadRun (some fClip) envThumbFail []).events) ∧
    "uploads/1700000000000.webm" ∉
      finalDisk ["keep.txt"] (uploadRun (some fClip) envThumbFail []).events :=
  ⟨⟨(C5_derivation_failure fClip envThumbFail [] ["keep.txt"]
      "ENOENT: no such file or directory, open uploads/1700000000000.webm"
      (Or.inl rfl)).1,
    (C5_derivation_failure fClip envThumbFail [] ["keep.txt"]
      "ENOENT: no such file or directory, open uploads/1700000000000.webm"
      (Or.inl rfl)).2.2.1⟩,
   ((C5_derivation_failure fClip envThumbFail [] ["keep.txt"]
      "ENOENT: no such file or directory, open uploads/1700000000000.webm"
      (Or.inl rfl)).2.2.2.2.2 "uploads/1700000000000.webm" (by decide)).2⟩

/-- Claim C6: what the delete route actually does. Because the id is built
with new MongoClient.ObjectId, which throws for every input, every delete
request, matching or not, lands in the catch block: the response is the 500
serverError body and the store is never changed; the 404 branch and the
success branch are unreachable. Evaluated in particular at the id
does-not-exist, the claim's own example, the response is a 500, not the
claimed not-found report. -/
theorem C6_delete_always_500 (store : List Recording) (idParam : String) :
    deleteRecording store idParam =
      (.serverError "Failed to delete recording", store) := rfl

/-- Claim C7 counterexample: a zero-byte upload with an accepted MIME type
is not rejected: the boundary accepts it, the run enters media derivation,
a file is created on disk and the tracker is invoked, contradicting the
claimed size-0 ValidationError. -/
theorem C7_counterexample :
    multerAccepts fEmpty = true ∧
    Event.extCall "thumbnail" ∈ (uploadRun (some fEmpty) envHappy []).events ∧
    Event.create fEmpty.path ∈ (uploadRun (some fEmpty) envHappy []).events ∧
    drainCount (uploadRun (some fEmpty) envHappy []).events = 1 := by
  decide

/-- Claim C7 amended: no minimum-size validation exists. A size-0 upload
whose MIME type or filename passes the fileFilter is accepted by the
boundary (the only size constraint is the 100MB ceiling), and its run
proceeds into media derivation: the upload file is created on disk, the
thumbnail call is issued, and the tracker drain runs. The only
pre-derivation rejection inside the handler is the 400 for a missing file
part. -/
theorem C7_size_zero_accepted (f : UploadedFile) (env : Env)
    (store : List Recording) (hsz : f.size = 0)
    (hts : fileFilter f.mimetype f.originalname = true) :
    multerAccepts f = true ∧
    Event.extCall "thumbnail" ∈ (uploadRun (some f) env store).events ∧
    Event.create f.path ∈ (uploadRun (some f) env store).events ∧
    drainCount (uploadRun (some f) env store).events = 1 := by
  obtain ⟨tr, ar, sr, pr, ir, tb, now⟩ := env
  refine ⟨by simp [multerAccepts, hts, hsz], ?_, ?_, ?_⟩ <;>
    cases tr <;> cases ar <;> cases sr <;> cases pr <;> cases ir <;>
    simp [uploadRun, drainCount]

/-- Claim C7 amended witness: the amended statement at the concrete
zero-byte upload and the all-success oracle. -/
theorem C7_amended_witness :
    multerAccepts fEmpty = true ∧
    Event.extCall "thumbnail" ∈ (uploadRun (some fEmpty) envHappy []).events ∧
    Event.create fEmpty.path ∈ (uploadRun (some fEmpty) envHappy []).events ∧
    drainCount (uploadRun (some fEmpty) envHappy []).events = 1 :=
  C7_size_zero_accepted fEmpty envHappy [] rfl (by decide)

/-- Claim C8 counterexample: internal cause detail is returned to the
caller, not only logged. On a concrete run whose ffmpeg rejection message
embeds an internal filesystem path, the 500 response body carries that
message verbatim in its details field, and the message contains the
uploads directory path. -/
theorem C8_counterexample :
    (uploadRun (some fClip) envThumbFail []).response =
      .failed "Upload failed"
        "ENOENT: no such file or directory, open uploads/1700000000000.webm" ∧
    containsSubstr
      "ENOENT: no such file or directory, open uploads/1700000000000.webm"
      "uploads/" = true := by
  decide

/-- Claim C8 amended: every failing run responds with the stable top-level
error string Upload failed together with a details field that is the caught
error's message verbatim; the message is not sanitised, so whatever internal
paths the underlying error mentions are returned to the caller (the stack
trace itself is only logged). -/
theorem C8_details_verbatim (f : UploadedFile) (env : Env)
    (store : List Recording) (e : PipelineError)
    (hc : (uploadRun (some f) env store).caught = some e) :
    (uploadRun (some f) env store).response =
      .failed "Upload failed" e.message := by
  obtain ⟨tr, ar, sr, pr, ir, tb, now⟩ := env
  cases tr <;> cases ar <;> cases sr <;> cases pr <;> cases ir <;>
    simp_all [uploadRun, PipelineError.message] <;>
    (subst hc
     rfl)

/-- Claim C8 amended witness: the amended statement at the concrete
thumbnail-failure oracle whose message embeds a filesystem path. -/
theorem C8_amended_witness :
    (uploadRun (some fClip) envThumbFail []).response =
      .failed "Upload failed"
        (PipelineError.message (.thumb
          "ENOENT: no such file or directory, open uploads/1700000000000.webm")) :=
  C8_details_verbatim fClip envThumbFail []
    (.thumb "ENOENT: no such file or directory, open uploads/1700000000000.webm")
    (by decide)

/-- Claim C9: a successful run persists the thumbnail bytes B as their
base64 text encoding; the stored document is the last element of the store,
it appears in the listing, and base64-decoding its thumbnail field yields
exactly B. -/
theorem C9_thumbnail_roundtrip (f : UploadedFile) (t rid : String)
    (dur ts : Nat) (B : List Nat) (store : List Recording)
    (hB : ∀ b ∈ B, b < 256) :
    (uploadRun (some f) ⟨.ok (), .ok (), .ok t, .ok dur, .ok rid, B, ts⟩
        store).store.getLastD dummyRec =
      { id := rid, transcript := t, thumbnail := base64Encode B,
        timestamp := ts,
        metadata :=
          { originalName := f.originalname, mimeType := f.mimetype,
            size := f.size, duration := dur } } ∧
    base64Decode ((uploadRun (some f)
        ⟨.ok (), .ok (), .ok t, .ok dur, .ok rid, B, ts⟩
        store).store.getLastD dummyRec).thumbnail = some B ∧
    (uploadRun (some f) ⟨.ok (), .ok (), .ok t, .ok dur, .ok rid, B, ts⟩
        store).store.getLastD dummyRec ∈
      listRecordings ((uploadRun (some f)
        ⟨.ok (), .ok (), .ok t, .ok dur, .ok rid, B, ts⟩ store).store) := by
  simp only [uploadRun, List.getLastD_concat]
  refine ⟨by simp, base64_roundtrip B hB, by simp [listRecordings]⟩

/-- Claim C9 witness: the round trip at the concrete all-success oracle,
whose thumbnail bytes decode back from the stored text. -/
theorem C9_witness :
    base64Decode ((uploadRun (some fClip) envHappy
        []).store.getLastD dummyRec).thumbnail = some [77, 97, 110] ∧
    (uploadRun (some fClip) envHappy []).store.getLastD dummyRec ∈
      listRecordings ((uploadRun (some fClip) envHappy []).store) :=
  ⟨(C9_thumbnail_roundtrip fClip "hello world" "R1" 10 1700000000
      [77, 97, 110] [] (by decide)).2.1,
   (C9_thumbnail_roundtrip fClip "hello world" "R1" 10 1700000000
      [77, 97, 110] [] (by decide)).2.2⟩

/-- Claim C10: when the declared MIME type is neither in the accepted list
(which contains the generic binary type) nor begins with video/, the
fileFilter's verdict is exactly the case-insensitive filename-extension
test; and a rejection happens precisely when the type checks and the
extension check all fail. -/
theorem C10_filter_disjunction (m n : String) :
    (validTypes.contains m = false → strStartsWith m "video/" = false →
      fileFilter m n = hasVideoExtension n) ∧
    (fileFilter m n = false ↔
      validTypes.contains m = false ∧ strStartsWith m "video/" = false ∧
        hasVideoExtension n = false) := by
  constructor
  · intro h1 h2
    unfold fileFilter
    rw [h1, h2]
    simp
  · simp [fileFilter, and_assoc]

/-- Claim C10 witness: a text MIME type with an upper-case video filename
extension: the filter's verdict equals the extension test, which accepts. -/
theorem C10_witness :
    fileFilter "text/plain" "A.MP4" = hasVideoExtension "A.MP4" ∧
    hasVideoExtension "A.MP4" = true :=
  ⟨(C10_filter_disjunction "text/plain" "A.MP4").1 (by decide) (by decide),
   by decide⟩

end ArchiveUpload
